import Mathlib

/-!
# Verification of the CESNET/landsat scene-ingestion pipeline

Shallow embedding of the downloader package (`src/downloader/*.py`):
the S3 object-store wrapper (`s3_connector.py`), the USGS M2M API client
(`m2m_api_connector.py`), the STAC catalog client (`stac_connector.py`),
the per-scene task (`downloaded_file.py`) and the orchestrator
(`landsat_downloader.py`).  Pure fragments become Lean functions; stateful
fragments are modelled by explicit state passing; calls that can raise are
modelled with `Except`; the event order of straight-line method bodies is
modelled by explicit event traces.
-/

namespace Landsat

/-! ## Decimal numerals

`S3Connector.check_if_key_exists` compares `str(key_head['ContentLength'])`
with its `expected_length` argument, so we need that the decimal numeral of
a natural number determines the number.  `toString (n : Nat)` unfolds to
`Nat.repr n = (Nat.toDigits 10 n).asString`; we prove that map injective. -/

/-- Numeric value of a decimal digit character. -/
def decDigit (c : Char) : Nat := c.toNat - '0'.toNat

/-- Value of a most-significant-first list of decimal digit characters. -/
def decValue (cs : List Char) : Nat := cs.foldl (fun a c => 10 * a + decDigit c) 0

lemma decValue_append_singleton (xs : List Char) (c : Char) :
    decValue (xs ++ [c]) = 10 * decValue xs + decDigit c := by
  simp [decValue, List.foldl_append]

lemma decDigit_digitChar_fin : ∀ m : Fin 10, decDigit (Nat.digitChar m.val) = m.val := by
  decide

lemma decDigit_digitChar {m : Nat} (h : m < 10) : decDigit (Nat.digitChar m) = m :=
  decDigit_digitChar_fin ⟨m, h⟩

lemma toDigitsCore_eq_append (b : Nat) :
    ∀ (f n : Nat) (ds : List Char),
      Nat.toDigitsCore b f n ds = Nat.toDigitsCore b f n [] ++ ds := by
  intro f
  induction f with
  | zero => intro n ds; simp [Nat.toDigitsCore]
  | succ f ih =>
    intro n ds
    simp only [Nat.toDigitsCore]
    by_cases h : n / b = 0
    · simp [h]
    · simp only [h, if_false]
      rw [ih (n / b) (Nat.digitChar (n % b) :: ds), ih (n / b) [Nat.digitChar (n % b)]]
      simp

lemma decValue_toDigitsCore :
    ∀ (f n : Nat), n < f → decValue (Nat.toDigitsCore 10 f n []) = n := by
  intro f
  induction f with
  | zero => intro n h; omega
  | succ f ih =>
    intro n h
    simp only [Nat.toDigitsCore]
    by_cases h0 : n / 10 = 0
    · have hn : n < 10 := by
        rcases Nat.lt_or_ge n 10 with h10 | h10
        · exact h10
        · exfalso
          have : 0 < n / 10 := Nat.div_pos h10 (by norm_num)
          omega
      simp [h0, decValue, decDigit_digitChar hn, Nat.mod_eq_of_lt hn]
    · have hd : n / 10 < f := by
        have h1 : n / 10 < n := Nat.div_lt_self (Nat.pos_of_ne_zero (by
          intro hz; rw [hz] at h0; simp at h0)) (by norm_num)
        omega
      simp only [h0, if_false]
      rw [toDigitsCore_eq_append, decValue_append_singleton, ih (n / 10) hd,
        decDigit_digitChar (Nat.mod_lt n (by norm_num))]
      omega

lemma natRepr_injective {m n : Nat} (h : Nat.repr m = Nat.repr n) : m = n := by
  have hlist : Nat.toDigits 10 m = Nat.toDigits 10 n := by
    have := congrArg String.data h
    simpa [Nat.repr, List.asString] using this
  have hm := decValue_toDigitsCore (m + 1) m (Nat.lt_succ_self m)
  have hn := decValue_toDigitsCore (n + 1) n (Nat.lt_succ_self n)
  rw [show Nat.toDigits 10 m = Nat.toDigitsCore 10 (m + 1) m [] from rfl] at hlist
  rw [show Nat.toDigits 10 n = Nat.toDigitsCore 10 (n + 1) n [] from rfl] at hlist
  rw [hlist] at hm
  omega

lemma natToString_injective {m n : Nat} (h : toString m = toString n) : m = n :=
  natRepr_injective h

/-! ## `S3Connector` (`src/downloader/s3_connector.py`)

The bucket is modelled as an association list from keys to the stored
object's `ContentLength`.  `head_object` is the lookup; a missing key is
the `ClientError` with code 404 of the source. -/

/-- Bucket contents: each stored key with its `ContentLength` in bytes. -/
def S3Bucket := List (String × Nat)

/-- `S3Connector.delete_key`: removes the key from the bucket. -/
def S3Connector.delete_key (bucket : S3Bucket) (bucket_key : String) : S3Bucket :=
  List.filter (fun kv => kv.1 ≠ bucket_key) bucket

/-- `S3Connector.check_if_key_exists(bucket_key, expected_length)`.
Mirrors `s3_connector.py` lines 88-127: `head_object` raising a 404 returns
`false`; with no `expected_length` an existing key returns `true`; otherwise
the source compares `str(key_head['ContentLength']) == expected_length`
(the expected length is passed as a string, as the caller in
`downloaded_file.py` passes the `Content-Length` header value), and on a
mismatch deletes the key and returns `false`.  Result: the returned boolean
together with the bucket after the call. -/
def S3Connector.check_if_key_exists (bucket : S3Bucket) (bucket_key : String)
    (expected_length : Option String) : Bool × S3Bucket :=
  match List.lookup bucket_key bucket with
  | none => (false, bucket)
  | some contentLength =>
    match expected_length with
    | none => (true, bucket)
    | some e =>
      if toString contentLength = e then (true, bucket)
      else (false, S3Connector.delete_key bucket bucket_key)

lemma lookup_delete_key (bucket : S3Bucket) (k : String) :
    List.lookup k (S3Connector.delete_key bucket k) = none := by
  induction bucket with
  | nil => simp [S3Connector.delete_key]
  | cons kv rest ih =>
    by_cases h : kv.1 = k
    · simpa [S3Connector.delete_key, List.filter_cons, h] using ih
    · have hk : (k == kv.1) = false := beq_eq_false_iff_ne.mpr (Ne.symm h)
      simpa [S3Connector.delete_key, List.filter_cons, h, List.lookup, hk] using ih

/-- C3.  For every bucket, key and expected size `S` (passed, as by the only
caller, as its decimal numeral): if the key exists with a stored size
different from `S`, the call deletes the object and returns `false` (the key
is absent from the resulting bucket); if the key exists with stored size
exactly `S`, the call returns `true` and leaves the bucket unchanged; if the
key does not exist, the call returns `false`.  A size mismatch is never
reported as existence. -/
theorem c3_check_if_key_exists_spec (bucket : S3Bucket) (k : String) (S : Nat) :
    (∀ size, List.lookup k bucket = some size → size ≠ S →
      S3Connector.check_if_key_exists bucket k (some (toString S)) =
        (false, S3Connector.delete_key bucket k) ∧
      List.lookup k (S3Connector.check_if_key_exists bucket k (some (toString S))).2 = none) ∧
    (List.lookup k bucket = some S →
      S3Connector.check_if_key_exists bucket k (some (toString S)) = (true, bucket)) ∧
    (List.lookup k bucket = none →
      S3Connector.check_if_key_exists bucket k (some (toString S)) = (false, bucket)) := by
  refine ⟨?_, ?_, ?_⟩
  · intro size hlook hne
    have hstr : toString size ≠ toString S := fun hc => hne (natToString_injective hc)
    constructor
    · simp [S3Connector.check_if_key_exists, hlook, hstr]
    · simp [S3Connector.check_if_key_exists, hlook, hstr, lookup_delete_key]
  · intro hlook
    simp [S3Connector.check_if_key_exists, hlook]
  · intro hlook
    simp [S3Connector.check_if_key_exists, hlook]

/-- Witness for C3 at a concrete bucket: the key `landsat_ot_c2_l1/x.tar`
stored with 100 bytes is deleted and reported missing when checked against
expected size 90, reported present against expected size 100, and a missing
key is reported missing. -/
theorem c3_check_if_key_exists_spec_witness :
    (S3Connector.check_if_key_exists [("landsat_ot_c2_l1/x.tar", 100)]
        "landsat_ot_c2_l1/x.tar" (some (toString 90)) =
      (false, S3Connector.delete_key [("landsat_ot_c2_l1/x.tar", 100)] "landsat_ot_c2_l1/x.tar") ∧
      List.lookup "landsat_ot_c2_l1/x.tar"
        (S3Connector.check_if_key_exists [("landsat_ot_c2_l1/x.tar", 100)]
          "landsat_ot_c2_l1/x.tar" (some (toString 90))).2 = none) ∧
    S3Connector.check_if_key_exists [("landsat_ot_c2_l1/x.tar", 100)]
        "landsat_ot_c2_l1/x.tar" (some (toString 100)) =
      (true, [("landsat_ot_c2_l1/x.tar", 100)]) := by
  refine ⟨?_, ?_⟩
  · exact (c3_check_if_key_exists_spec [("landsat_ot_c2_l1/x.tar", 100)]
      "landsat_ot_c2_l1/x.tar" 90).1 100 (by decide) (by decide)
  · exact (c3_check_if_key_exists_spec [("landsat_ot_c2_l1/x.tar", 100)]
      "landsat_ot_c2_l1/x.tar" 100).2.1 (by decide)

/-! ## `STACConnector` (`src/downloader/stac_connector.py`)

The register/update protocol works on the JSON envelope of the POST
response; we embed the envelope shape the source reads (`ErrorCode`,
`ErrorMessage`, `errors[]`, `features[]`) and the id-extraction done with
Python's `str.split(' ')`. -/

/-- Python `str.split(sep)` on a single separator character, over the
character list: splits at every occurrence, keeping empty parts. -/
def pySplitChars (sep : Char) : List Char → List (List Char)
  | [] => [[]]
  | c :: cs =>
    match pySplitChars sep cs with
    | [] => [[]]
    | g :: gs => if c = sep then [] :: g :: gs else (c :: g) :: gs

/-- Python `s.split(' ')` for a one-character separator. -/
def pySplit (sep : Char) (s : String) : List String :=
  (pySplitChars sep s.toList).map List.asString

/-- One entry of the `errors[]` array of a RESTO registration response. -/
structure STACErrorEntry where
  code : Int
  error : String
deriving DecidableEq, Repr

/-- The fields of the registration POST's JSON body that
`STACConnector.register_stac_item` reads: an optional `ErrorCode` with its
`ErrorMessage`, an optional `errors[]` array (`none` when the key is absent)
and the `features[*].featureId` list. -/
structure STACRegisterResponse where
  errorCode : Option Int
  errorMessage : String
  errors : Option (List STACErrorEntry)
  features : List String
deriving DecidableEq, Repr

/-- The fields of the update PUT's JSON body that
`STACConnector.update_stac_item` reads. -/
structure STACUpdateResponse where
  status : String
  message : String
deriving DecidableEq, Repr

/-- Errors raised by the register/update response handling: the
`STACRequestNotOK` of `update_stac_item`, the generic
`Exception(f"Error {code} ...")` of `register_stac_item`, the `KeyError`
raised by the `errors`-branch message that reads the absent `ErrorCode`
key, and the `IndexError` of an out-of-range `[1]`/`[0]` subscript. -/
inductive STACResponseError
  | updateNotOK (featureId : String)
  | registerError (code : Int)
  | keyError
  | indexError
deriving DecidableEq, Repr

/-- `STACConnector.update_stac_item` (`stac_connector.py` lines 203-220),
as a function of the PUT response: a non-`"success"` status raises
`STACRequestNotOK`, otherwise the returned feature id is the last
space-separated word of `response['message']`. -/
def STACConnector.update_stac_item (upd : STACUpdateResponse)
    (feature_id : String) : Except STACResponseError String :=
  if upd.status ≠ "success" then .error (.updateNotOK feature_id)
  else .ok ((pySplit ' ' upd.message).getLastD "")

/-- `STACConnector.register_stac_item` (`stac_connector.py` lines 126-187),
as a function of the POST response envelope and of the PUT response the
embedded `update_stac_item` call would receive.  Mirrors the source's key
checks in order: an `ErrorCode` of 409 re-routes to `update_stac_item` with
the id taken from `ErrorMessage.split(' ')[1]`; any other `ErrorCode`
raises; with an `errors[]` key, only `errors[0]` is inspected — code 409
re-routes to update with `errors[0]['error'].split(' ')[1]`, any other code
raises (a `KeyError`, since the message reads the absent `ErrorCode` key);
otherwise the id is `features[0]['featureId']`. -/
def STACConnector.register_stac_item (post : STACRegisterResponse)
    (upd : STACUpdateResponse) : Except STACResponseError String :=
  match post.errorCode with
  | some c =>
    if c = 409 then
      match (pySplit ' ' post.errorMessage)[1]? with
      | some fid => STACConnector.update_stac_item upd fid
      | none => .error .indexError
    else .error (.registerError c)
  | none =>
    match post.errors with
    | some (e :: _) =>
      if e.code = 409 then
        match (pySplit ' ' e.error)[1]? with
        | some fid => STACConnector.update_stac_item upd fid
        | none => .error .indexError
      else .error .keyError
    | some [] =>
      match post.features[0]? with
      | some fid => .ok fid
      | none => .error .indexError
    | none =>
      match post.features[0]? with
      | some fid => .ok fid
      | none => .error .indexError

/-- C4, counterexample to the claim as stated.  A registration response may
embed a conflict as a *non-first* `errors[]` entry with code 409; on such a
response `register_stac_item` raises (the `KeyError` of the non-409 branch)
instead of extracting the feature id and routing to update — even though
the update route would have produced the id `LC09X`. -/
theorem c4_counterexample :
    (∃ e ∈ ([⟨500, "Internal error"⟩,
             ⟨409, "Feature LC09X already exists"⟩] : List STACErrorEntry), e.code = 409) ∧
    STACConnector.register_stac_item
      { errorCode := none, errorMessage := "",
        errors := some [⟨500, "Internal error"⟩, ⟨409, "Feature LC09X already exists"⟩],
        features := [] }
      { status := "success", message := "Feature LC09X updated" } =
      .error .keyError ∧
    STACConnector.update_stac_item
      { status := "success", message := "Feature updated LC09X" } "LC09X" = .ok "LC09X" := by
  refine ⟨⟨⟨409, "Feature LC09X already exists"⟩, by simp, rfl⟩, rfl, rfl⟩

/-- C4, amended: if the registration response embeds a conflict as an
`ErrorCode` of 409 or as a *first* `errors[]` entry with code 409,
`register_stac_item` extracts the existing feature id from the error
message (its second space-separated word) and delegates to
`update_stac_item` with that id, returning the id the update produces (the
last word of the update response's message); so registering the same item
twice returns the same feature id both times, the second call routed
through update.  Any other embedded error raises and is propagated. -/
theorem c4_register_conflict_upsert :
    (∀ (post : STACRegisterResponse) (upd : STACUpdateResponse) (fid : String),
      post.errorCode = some 409 →
      (pySplit ' ' post.errorMessage)[1]? = some fid →
      STACConnector.register_stac_item post upd = STACConnector.update_stac_item upd fid) ∧
    (∀ (post : STACRegisterResponse) (upd : STACUpdateResponse)
        (e : STACErrorEntry) (rest : List STACErrorEntry) (fid : String),
      post.errorCode = none →
      post.errors = some (e :: rest) →
      e.code = 409 →
      (pySplit ' ' e.error)[1]? = some fid →
      STACConnector.register_stac_item post upd = STACConnector.update_stac_item upd fid) ∧
    (∀ (upd : STACUpdateResponse) (fid : String),
      upd.status = "success" →
      STACConnector.update_stac_item upd fid = .ok ((pySplit ' ' upd.message).getLastD "")) ∧
    (∀ (post : STACRegisterResponse) (upd : STACUpdateResponse) (c : Int),
      post.errorCode = some c → c ≠ 409 →
      STACConnector.register_stac_item post upd = .error (.registerError c)) ∧
    (∀ (post : STACRegisterResponse) (upd : STACUpdateResponse)
        (e : STACErrorEntry) (rest : List STACErrorEntry),
      post.errorCode = none →
      post.errors = some (e :: rest) →
      e.code ≠ 409 →
      STACConnector.register_stac_item post upd = .error .keyError) ∧
    (∀ (post1 post2 : STACRegisterResponse) (upd : STACUpdateResponse) (X : String),
      post1.errorCode = none → post1.errors = none → post1.features = [X] →
      post2.errorCode = some 409 →
      (pySplit ' ' post2.errorMessage)[1]? = some X →
      upd.status = "success" →
      (pySplit ' ' upd.message).getLastD "" = X →
      STACConnector.register_stac_item post1 upd = .ok X ∧
      STACConnector.register_stac_item post2 upd = .ok X) := by
  refine ⟨?_, ?_, ?_, ?_, ?_, ?_⟩
  · intro post upd fid h1 h2
    simp [STACConnector.register_stac_item, h1, h2]
  · intro post upd e rest fid h1 h2 h3 h4
    simp [STACConnector.register_stac_item, h1, h2, h3, h4]
  · intro upd fid h
    simp [STACConnector.update_stac_item, h]
  · intro post upd c h1 h2
    simp [STACConnector.register_stac_item, h1, h2]
  · intro post upd e rest h1 h2 h3
    simp [STACConnector.register_stac_item, h1, h2, h3]
  · intro post1 post2 upd X h1 h2 h3 h4 h5 h6 h7
    constructor
    · simp [STACConnector.register_stac_item, h1, h2, h3]
    · rw [STACConnector.register_stac_item]
      simp only [h4]
      rw [if_pos trivial]
      simp only [h5]
      rw [STACConnector.update_stac_item, if_neg (not_not_intro h6), h7]

/-- Witness for C4 at concrete responses: the first registration succeeds
with feature id `LC09X`; the second returns a 409 conflict envelope, is
routed through update, and returns the same id `LC09X`. -/
theorem c4_register_conflict_upsert_witness :
    STACConnector.register_stac_item
        { errorCode := none, errorMessage := "", errors := none, features := ["LC09X"] }
        { status := "success", message := "Feature updated LC09X" } = .ok "LC09X" ∧
    STACConnector.register_stac_item
        { errorCode := some 409, errorMessage := "Feature LC09X already exists",
          errors := none, features := [] }
        { status := "success", message := "Feature updated LC09X" } = .ok "LC09X" :=
  c4_register_conflict_upsert.2.2.2.2.2
    { errorCode := none, errorMessage := "", errors := none, features := ["LC09X"] }
    { errorCode := some 409, errorMessage := "Feature LC09X already exists",
      errors := none, features := [] }
    { status := "success", message := "Feature updated LC09X" } "LC09X"
    rfl rfl rfl rfl rfl rfl rfl

/-! ## Token lifecycle of the two authenticated clients

`M2MAPIConnector._send_request` (`m2m_api_connector.py` lines 207-227) and
`STACConnector._send_request` (`stac_connector.py` lines 43-66) both hold a
bearer token with an expiry instant (`_api_token_valid_until`, set by the
login methods to `utcnow + 2 hours` resp. `utcnow + 1 day`).  Time is
modelled in seconds as `Int`.  A sent authenticated request is recorded
with the token used, that token's expiry instant, the send instant, and
whether a re-login happened right before the send. -/

/-- An authenticated HTTP request as actually sent. -/
structure SentRequest where
  token : String
  tokenValidUntil : Int
  sentAt : Int
  reauthenticated : Bool
deriving DecidableEq, Repr

/-- Token-holding state of `STACConnector` (`_username`, `_password`,
`_stac_token`, `_api_token_valid_until`). -/
structure STACState where
  username : String
  password : String
  stacToken : String
  apiTokenValidUntil : Int
deriving DecidableEq, Repr

/-- Token-holding state of `M2MAPIConnector` (`_username`, `_token`,
`_api_token`, `_api_token_valid_until`). -/
structure M2MState where
  username : String
  token : String
  apiToken : String
  apiTokenValidUntil : Int
deriving DecidableEq, Repr

/-- The authentication prelude of `STACConnector._send_request`
(`stac_connector.py` lines 52-56): for any endpoint other than `auth`, if
`_api_token_valid_until < utcnow` then `_login` runs first (obtaining a
fresh token valid for one day), and the `Authorization` header carries the
(possibly refreshed) `_stac_token`.  Returns the sent authenticated request
(`none` for the `auth` endpoint, which sends no token) and the state after
the call.  `freshToken` is the token a re-login would obtain. -/
def STACConnector.send_request_auth (st : STACState) (now : Int)
    (freshToken : String) (endpoint : String) : Option SentRequest × STACState :=
  if endpoint ≠ "auth" then
    let st' := if st.apiTokenValidUntil < now
      then { st with stacToken := freshToken, apiTokenValidUntil := now + 86400 }
      else st
    (some { token := st'.stacToken, tokenValidUntil := st'.apiTokenValidUntil,
            sentAt := now, reauthenticated := decide (st.apiTokenValidUntil < now) }, st')
  else (none, st)

/-- The authentication prelude of `M2MAPIConnector._send_request`
(`m2m_api_connector.py` lines 216-220): for any endpoint other than `login`
and `login-token`, if `_api_token_valid_until < utcnow` then `_login_token`
runs first (fresh token valid for two hours), and the `X-Auth-Token` header
carries the (possibly refreshed) `_api_token`. -/
def M2MAPIConnector.send_request_auth (st : M2MState) (now : Int)
    (freshApiToken : String) (endpoint : String) : Option SentRequest × M2MState :=
  if endpoint ≠ "login" ∧ endpoint ≠ "login-token" then
    let st' := if st.apiTokenValidUntil < now
      then { st with apiToken := freshApiToken, apiTokenValidUntil := now + 7200 }
      else st
    (some { token := st'.apiToken, tokenValidUntil := st'.apiTokenValidUntil,
            sentAt := now, reauthenticated := decide (st.apiTokenValidUntil < now) }, st')
  else (none, st)

/-- The POST actually performed by `STACConnector.register_stac_item`
(`stac_connector.py` lines 143-156): the headers are built directly from
`self._stac_token` and `requests.post` is called without going through
`_send_request` — the method body contains no expiry check and no re-login,
whatever the current time. -/
def STACConnector.register_stac_item_request (st : STACState) (now : Int) : SentRequest :=
  { token := st.stacToken, tokenValidUntil := st.apiTokenValidUntil,
    sentAt := now, reauthenticated := false }

/-- C7, counterexample to the claim as stated.  With a stored STAC token
that expired at instant 0, a catalog-item registration performed at instant
5 sends the stale token: the request goes out with `now ≥ expiry`, no
re-authentication happens first, and the token sent is the stored stale
one — because `register_stac_item` posts directly instead of going through
`_send_request`. -/
theorem c7_counterexample :
    (STACConnector.register_stac_item_request ⟨"user", "pw", "stale-token", 0⟩ 5).tokenValidUntil ≤
      (STACConnector.register_stac_item_request ⟨"user", "pw", "stale-token", 0⟩ 5).sentAt ∧
    (STACConnector.register_stac_item_request ⟨"user", "pw", "stale-token", 0⟩ 5).reauthenticated
      = false ∧
    (STACConnector.register_stac_item_request ⟨"user", "pw", "stale-token", 0⟩ 5).token
      = "stale-token" :=
  ⟨by decide, rfl, rfl⟩

/-- C7, amended: every authenticated request routed through either client's
`_send_request` re-checks the token expiry first and re-authenticates
transparently when `validUntil < now`, so such a request is never sent with
a token whose expiry instant lies before the send instant; but
`STACConnector.register_stac_item` performs its POST directly with the
stored token, with no expiry re-check and no re-authentication, so that
POST can carry an expired token. -/
theorem c7_send_request_token_validity :
    (∀ (st : STACState) (now : Int) (freshToken endpoint : String) (req : SentRequest),
      (STACConnector.send_request_auth st now freshToken endpoint).1 = some req →
      req.sentAt ≤ req.tokenValidUntil) ∧
    (∀ (st : M2MState) (now : Int) (freshApiToken endpoint : String) (req : SentRequest),
      (M2MAPIConnector.send_request_auth st now freshApiToken endpoint).1 = some req →
      req.sentAt ≤ req.tokenValidUntil) ∧
    (∀ (st : STACState) (now : Int),
      STACConnector.register_stac_item_request st now =
        { token := st.stacToken, tokenValidUntil := st.apiTokenValidUntil,
          sentAt := now, reauthenticated := false }) := by
  refine ⟨?_, ?_, fun st now => rfl⟩
  · intro st now freshToken endpoint req h
    by_cases he : endpoint ≠ "auth"
    · rw [STACConnector.send_request_auth, if_pos he] at h
      by_cases hv : st.apiTokenValidUntil < now
      · simp only [if_pos hv, Option.some_inj] at h
        rw [← h]
        simp only
        omega
      · simp only [if_neg hv, Option.some_inj] at h
        rw [← h]
        simp only
        omega
    · rw [STACConnector.send_request_auth, if_neg he] at h
      exact absurd h (by simp)
  · intro st now freshApiToken endpoint req h
    by_cases he : endpoint ≠ "login" ∧ endpoint ≠ "login-token"
    · rw [M2MAPIConnector.send_request_auth, if_pos he] at h
      by_cases hv : st.apiTokenValidUntil < now
      · simp only [if_pos hv, Option.some_inj] at h
        rw [← h]
        simp only
        omega
      · simp only [if_neg hv, Option.some_inj] at h
        rw [← h]
        simp only
        omega
    · rw [M2MAPIConnector.send_request_auth, if_neg he] at h
      exact absurd h (by simp)

/-- Witness for C7's amended statement: a STAC request through
`_send_request` at instant 5 with a token that expired at instant 0 is sent
only after refresh (its expiry 5 + 86400 is not before the send instant),
and likewise for an M2M request; the register POST sends the stored state
unchanged. -/
theorem c7_send_request_token_validity_witness :
    (5 : Int) ≤ 5 + 86400 ∧ (5 : Int) ≤ 5 + 7200 :=
  ⟨by
    have h := c7_send_request_token_validity.1 ⟨"user", "pw", "stale", 0⟩ 5 "fresh" "collections"
      { token := "fresh", tokenValidUntil := 5 + 86400, sentAt := 5, reauthenticated := true }
      (by decide)
    exact h,
   by
    have h := c7_send_request_token_validity.2.1 ⟨"user", "tok", "stale", 0⟩ 5 "fresh" "scene-search"
      { token := "fresh", tokenValidUntil := 5 + 7200, sentAt := 5, reauthenticated := true }
      (by decide)
    exact h⟩

/-! ## Request retry loops

`M2MAPIConnector._retry_request` (`m2m_api_connector.py` lines 229-261) and
`STACConnector._retry_request` (`stac_connector.py` lines 68-101) run the
same loop: `while max_retries > retry`, issue one HTTP attempt; a returned
response ends the loop; `requests.exceptions.Timeout` increments `retry`,
multiplies the sleep by `1 + random()` and sleeps that long; any other
exception propagates out of the loop; an exhausted loop raises the
connector's `RequestTimeout(retry, max_retries)` exception.  The outcome of
the `i`-th HTTP attempt is supplied by `attempts i`, the `i`-th draw of
`random.random()` by `randoms i`. -/

/-- What one HTTP attempt does: return a response, raise
`requests.exceptions.Timeout`, or raise some other transport exception. -/
inductive AttemptOutcome
  | timeout
  | transportError (message : String)
  | response (statusCode : Int) (content : String)
deriving DecidableEq, Repr

/-- The errors a `_send_request` call can raise: the connector's
`RequestTimeout(retry, max_retries)`, a propagated non-timeout transport
exception, or the connector's `RequestNotOK(status_code)` (the same shapes
exist as `M2MAPI*` and `STAC*` exception classes). -/
inductive RequestError
  | requestTimedOut (retry : Nat) (maxRetries : Nat)
  | transportError (message : String)
  | requestNotOK (statusCode : Int)
deriving DecidableEq, Repr

/-- Observable behaviour of one `_retry_request` call: its result, how many
HTTP attempts it made, and the successive backoff sleep durations. -/
structure RetryTrace where
  result : Except RequestError (Int × String)
  attemptsMade : Nat
  sleeps : List ℚ

/-- Loop body of `M2MAPIConnector._retry_request`, with `fuel`
maintaining `fuel = max_retries - retry`. -/
def m2m_retry_go (attempts : Nat → AttemptOutcome) (randoms : Nat → ℚ)
    (max_retries : Nat) : Nat → Nat → ℚ → RetryTrace
  | 0, retry, _ => ⟨.error (.requestTimedOut retry max_retries), 0, []⟩
  | fuel + 1, retry, sleep =>
    match attempts retry with
    | .response code content => ⟨.ok (code, content), 1, []⟩
    | .transportError msg => ⟨.error (.transportError msg), 1, []⟩
    | .timeout =>
      let newSleep := (1 + randoms retry) * sleep
      let r := m2m_retry_go attempts randoms max_retries fuel (retry + 1) newSleep
      ⟨r.result, r.attemptsMade + 1, newSleep :: r.sleeps⟩

/-- `M2MAPIConnector._retry_request(endpoint, payload, max_retries, headers,
timeout, sleep)`: the loop starts with `retry = 0` and the given initial
sleep (default 5 seconds in the source). -/
def M2MAPIConnector.retry_request (attempts : Nat → AttemptOutcome)
    (randoms : Nat → ℚ) (max_retries : Nat) (sleep : ℚ) : RetryTrace :=
  m2m_retry_go attempts randoms max_retries max_retries 0 sleep

/-- Loop body of `STACConnector._retry_request`: identical control flow
(`stac_connector.py` lines 72-101), raising `STACRequestTimeout` on
exhaustion. -/
def stac_retry_go (attempts : Nat → AttemptOutcome) (randoms : Nat → ℚ)
    (max_retries : Nat) : Nat → Nat → ℚ → RetryTrace
  | 0, retry, _ => ⟨.error (.requestTimedOut retry max_retries), 0, []⟩
  | fuel + 1, retry, sleep =>
    match attempts retry with
    | .response code content => ⟨.ok (code, content), 1, []⟩
    | .transportError msg => ⟨.error (.transportError msg), 1, []⟩
    | .timeout =>
      let newSleep := (1 + randoms retry) * sleep
      let r := stac_retry_go attempts randoms max_retries fuel (retry + 1) newSleep
      ⟨r.result, r.attemptsMade + 1, newSleep :: r.sleeps⟩

/-- `STACConnector._retry_request(endpoint, payload_dict, max_retries,
headers, timeout, sleep)`. -/
def STACConnector.retry_request (attempts : Nat → AttemptOutcome)
    (randoms : Nat → ℚ) (max_retries : Nat) (sleep : ℚ) : RetryTrace :=
  stac_retry_go attempts randoms max_retries max_retries 0 sleep

/-- Result part of `M2MAPIConnector._send_request` (`m2m_api_connector.py`
lines 222-227): run the retry loop once; if it returned a response with
`status_code != 200` raise `M2MAPIRequestNotOK(status_code)`, else return
the content. -/
def M2MAPIConnector.send_request (attempts : Nat → AttemptOutcome)
    (randoms : Nat → ℚ) (max_retries : Nat) (sleep : ℚ) : Except RequestError String :=
  match (M2MAPIConnector.retry_request attempts randoms max_retries sleep).result with
  | .error e => .error e
  | .ok (code, content) =>
    if code ≠ 200 then .error (.requestNotOK code) else .ok content

/-- Result part of `STACConnector._send_request` (`stac_connector.py` lines
58-66): same shape, raising `STACRequestNotOK(status_code)`. -/
def STACConnector.send_request (attempts : Nat → AttemptOutcome)
    (randoms : Nat → ℚ) (max_retries : Nat) (sleep : ℚ) : Except RequestError String :=
  match (STACConnector.retry_request attempts randoms max_retries sleep).result with
  | .error e => .error e
  | .ok (code, content) =>
    if code ≠ 200 then .error (.requestNotOK code) else .ok content

lemma m2m_retry_go_timeout_before_last (attempts : Nat → AttemptOutcome)
    (randoms : Nat → ℚ) (m : Nat) :
    ∀ (fuel retry : Nat) (sleep : ℚ) (i : Nat),
      i + 1 < (m2m_retry_go attempts randoms m fuel retry sleep).attemptsMade →
      attempts (retry + i) = .timeout := by
  intro fuel
  induction fuel with
  | zero => intro retry sleep i h; simp [m2m_retry_go] at h
  | succ fuel ih =>
    intro retry sleep i h
    rw [m2m_retry_go] at h
    match ha : attempts retry with
    | .response code content => rw [ha] at h; simp at h
    | .transportError msg => rw [ha] at h; simp at h
    | .timeout =>
      rw [ha] at h
      simp only at h
      match i with
      | 0 => simpa using ha
      | j + 1 =>
        have hj := ih (retry + 1) ((1 + randoms retry) * sleep) j (by omega)
        have : retry + (j + 1) = retry + 1 + j := by omega
        rw [this]
        exact hj

lemma m2m_retry_go_attempts_le (attempts : Nat → AttemptOutcome)
    (randoms : Nat → ℚ) (m : Nat) :
    ∀ (fuel retry : Nat) (sleep : ℚ),
      (m2m_retry_go attempts randoms m fuel retry sleep).attemptsMade ≤ fuel := by
  intro fuel
  induction fuel with
  | zero => intro retry sleep; simp [m2m_retry_go]
  | succ fuel ih =>
    intro retry sleep
    rw [m2m_retry_go]
    match ha : attempts retry with
    | .response code content => simp
    | .transportError msg => simp
    | .timeout =>
      simp only
      have := ih (retry + 1) ((1 + randoms retry) * sleep)
      omega

lemma m2m_retry_go_all_timeout (attempts : Nat → AttemptOutcome)
    (randoms : Nat → ℚ) (m : Nat) (hall : ∀ i, attempts i = .timeout) :
    ∀ (fuel retry : Nat) (sleep : ℚ),
      (m2m_retry_go attempts randoms m fuel retry sleep).result =
        .error (.requestTimedOut (retry + fuel) m) ∧
      (m2m_retry_go attempts randoms m fuel retry sleep).attemptsMade = fuel := by
  intro fuel
  induction fuel with
  | zero => intro retry sleep; simp [m2m_retry_go]
  | succ fuel ih =>
    intro retry sleep
    rw [m2m_retry_go, hall retry]
    simp only
    have := ih (retry + 1) ((1 + randoms retry) * sleep)
    refine ⟨?_, by omega⟩
    rw [this.1]
    have : retry + 1 + fuel = retry + (fuel + 1) := by omega
    rw [this]

lemma m2m_retry_go_sleeps_chain (attempts : Nat → AttemptOutcome)
    (randoms : Nat → ℚ) (m : Nat) (hr : ∀ i, 0 ≤ randoms i) :
    ∀ (fuel retry : Nat) (sleep : ℚ), 0 ≤ sleep →
      List.Chain' (fun a b => a ≤ b)
        (sleep :: (m2m_retry_go attempts randoms m fuel retry sleep).sleeps) := by
  intro fuel
  induction fuel with
  | zero => intro retry sleep hs; simp [m2m_retry_go]
  | succ fuel ih =>
    intro retry sleep hs
    rw [m2m_retry_go]
    match ha : attempts retry with
    | .response code content => simp
    | .transportError msg => simp
    | .timeout =>
      simp only
      have hgrow : sleep ≤ (1 + randoms retry) * sleep := by
        nlinarith [hr retry]
      have hpos : (0 : ℚ) ≤ (1 + randoms retry) * sleep := le_trans hs hgrow
      exact List.Chain'.cons hgrow (ih (retry + 1) ((1 + randoms retry) * sleep) hpos)

lemma stac_retry_go_eq_m2m (attempts : Nat → AttemptOutcome)
    (randoms : Nat → ℚ) (m : Nat) :
    ∀ (fuel retry : Nat) (sleep : ℚ),
      stac_retry_go attempts randoms m fuel retry sleep =
        m2m_retry_go attempts randoms m fuel retry sleep := by
  intro fuel
  induction fuel with
  | zero => intro retry sleep; rfl
  | succ fuel ih =>
    intro retry sleep
    rw [stac_retry_go, m2m_retry_go]
    match ha : attempts retry with
    | .response code content => rfl
    | .transportError msg => rfl
    | .timeout => simp only [ih]

/-- C10.  For both clients' retry loops, run with attempt outcomes
`attempts`, random draws `randoms` (each in `[0,1)`), the source's bound
`max_retries = 5` and initial sleep 5: (1) an attempt other than the last
one made is always a timeout — a response or a non-timeout error is never
re-sent; (2) at most 5 attempts are made; (3) if every attempt times out,
both loops raise `RequestTimeout` carrying the retry count 5, after exactly
5 attempts; (4) a first-attempt non-timeout transport error propagates
after that single attempt with no backoff sleeps; (5) the backoff sleeps
grow monotonically from the initial sleep, each scaled by `1 + random()`;
(6) a response ends the loop at once, and a non-200 status makes
`_send_request` raise `RequestNotOK(status_code)` while a 200 response
returns the content — in both cases the request is not re-sent. -/
theorem c10_retry_request_policy (attempts : Nat → AttemptOutcome) (randoms : Nat → ℚ) :
    (∀ i, i + 1 < (M2MAPIConnector.retry_request attempts randoms 5 5).attemptsMade →
      attempts i = .timeout) ∧
    (∀ i, i + 1 < (STACConnector.retry_request attempts randoms 5 5).attemptsMade →
      attempts i = .timeout) ∧
    (M2MAPIConnector.retry_request attempts randoms 5 5).attemptsMade ≤ 5 ∧
    (STACConnector.retry_request attempts randoms 5 5).attemptsMade ≤ 5 ∧
    ((∀ i, attempts i = .timeout) →
      (M2MAPIConnector.retry_request attempts randoms 5 5).result =
        .error (.requestTimedOut 5 5) ∧
      (M2MAPIConnector.retry_request attempts randoms 5 5).attemptsMade = 5 ∧
      (STACConnector.retry_request attempts randoms 5 5).result =
        .error (.requestTimedOut 5 5) ∧
      (STACConnector.retry_request attempts randoms 5 5).attemptsMade = 5) ∧
    (∀ msg, attempts 0 = .transportError msg →
      M2MAPIConnector.retry_request attempts randoms 5 5 =
        ⟨.error (.transportError msg), 1, []⟩ ∧
      STACConnector.retry_request attempts randoms 5 5 =
        ⟨.error (.transportError msg), 1, []⟩) ∧
    ((∀ i, 0 ≤ randoms i) →
      List.Chain' (fun a b => a ≤ b)
        (5 :: (M2MAPIConnector.retry_request attempts randoms 5 5).sleeps) ∧
      List.Chain' (fun a b => a ≤ b)
        (5 :: (STACConnector.retry_request attempts randoms 5 5).sleeps)) ∧
    (∀ code content, attempts 0 = .response code content →
      (M2MAPIConnector.retry_request attempts randoms 5 5).attemptsMade = 1 ∧
      (STACConnector.retry_request attempts randoms 5 5).attemptsMade = 1 ∧
      (code ≠ 200 →
        M2MAPIConnector.send_request attempts randoms 5 5 = .error (.requestNotOK code) ∧
        STACConnector.send_request attempts randoms 5 5 = .error (.requestNotOK code)) ∧
      (code = 200 →
        M2MAPIConnector.send_request attempts randoms 5 5 = .ok content ∧
        STACConnector.send_request attempts randoms 5 5 = .ok content)) := by
  have hstac : ∀ (fuel retry : Nat) (sleep : ℚ),
      stac_retry_go attempts randoms 5 fuel retry sleep =
        m2m_retry_go attempts randoms 5 fuel retry sleep :=
    stac_retry_go_eq_m2m attempts randoms 5
  refine ⟨?_, ?_, ?_, ?_, ?_, ?_, ?_, ?_⟩
  · intro i h
    simpa using m2m_retry_go_timeout_before_last attempts randoms 5 5 0 5 i h
  · intro i h
    rw [STACConnector.retry_request, hstac] at h
    simpa using m2m_retry_go_timeout_before_last attempts randoms 5 5 0 5 i h
  · exact m2m_retry_go_attempts_le attempts randoms 5 5 0 5
  · rw [STACConnector.retry_request, hstac]
    exact m2m_retry_go_attempts_le attempts randoms 5 5 0 5
  · intro hall
    have h := m2m_retry_go_all_timeout attempts randoms 5 hall 5 0 5
    refine ⟨h.1, h.2, ?_, ?_⟩
    · rw [STACConnector.retry_request, hstac]; exact h.1
    · rw [STACConnector.retry_request, hstac]; exact h.2
  · intro msg h0
    constructor
    · rw [M2MAPIConnector.retry_request, m2m_retry_go, h0]
    · rw [STACConnector.retry_request, stac_retry_go, h0]
  · intro hr
    constructor
    · exact m2m_retry_go_sleeps_chain attempts randoms 5 hr 5 0 5 (by norm_num)
    · rw [STACConnector.retry_request, hstac]
      exact m2m_retry_go_sleeps_chain attempts randoms 5 hr 5 0 5 (by norm_num)
  · intro code content h0
    have hm : M2MAPIConnector.retry_request attempts randoms 5 5 =
        ⟨.ok (code, content), 1, []⟩ := by
      rw [M2MAPIConnector.retry_request, m2m_retry_go, h0]
    have hs : STACConnector.retry_request attempts randoms 5 5 =
        ⟨.ok (code, content), 1, []⟩ := by
      rw [STACConnector.retry_request, stac_retry_go, h0]
    refine ⟨by rw [hm], by rw [hs], ?_, ?_⟩
    · intro hc
      constructor
      · rw [M2MAPIConnector.send_request, hm]
        simp [hc]
      · rw [STACConnector.send_request, hs]
        simp [hc]
    · intro hc
      constructor
      · rw [M2MAPIConnector.send_request, hm]
        simp [hc]
      · rw [STACConnector.send_request, hs]
        simp [hc]

/-- Witness for C10 at concrete attempt streams: with every attempt timing
out both loops stop after exactly 5 attempts and raise the timeout error
carrying retry count 5; with a first attempt answering a 503 response,
`_send_request` raises `RequestNotOK 503` after a single attempt. -/
theorem c10_retry_request_policy_witness :
    (M2MAPIConnector.retry_request (fun _ => .timeout) (fun _ => 0) 5 5).result =
      .error (.requestTimedOut 5 5) ∧
    (STACConnector.retry_request (fun _ => .timeout) (fun _ => 0) 5 5).attemptsMade = 5 ∧
    M2MAPIConnector.send_request (fun _ => .response 503 "busy") (fun _ => 0) 5 5 =
      .error (.requestNotOK 503) ∧
    STACConnector.send_request (fun _ => .response 503 "busy") (fun _ => 0) 5 5 =
      .error (.requestNotOK 503) := by
  refine ⟨?_, ?_, ?_, ?_⟩
  · exact ((c10_retry_request_policy (fun _ => .timeout) (fun _ => 0)).2.2.2.2.1
      (fun i => rfl)).1
  · exact ((c10_retry_request_policy (fun _ => .timeout) (fun _ => 0)).2.2.2.2.1
      (fun i => rfl)).2.2.2
  · exact (((c10_retry_request_policy (fun _ => .response 503 "busy") (fun _ => 0)).2.2.2.2.2.2.2
      503 "busy" rfl).2.2.1 (by decide)).1
  · exact (((c10_retry_request_policy (fun _ => .response 503 "busy") (fun _ => 0)).2.2.2.2.2.2.2
      503 "busy" rfl).2.2.1 (by decide)).2

/-! ## `LandsatDownloader` (`src/downloader/landsat_downloader.py`)

Calendar days are modelled as `Int` (days since an arbitrary epoch), so
`datetime.timedelta(weeks=4)` is the integer 28 and "yesterday" of `today`
is `today - 1`. -/

/-- `LandsatDownloader._create_array_of_downloadable_days(date_from,
date_to)` (lines 165-180): `while date_from < date_to: date_from += 1;
downloadable_days.append(date_from)` — the days strictly after `date_from`
up to and including `date_to`. -/
def LandsatDownloader.create_array_of_downloadable_days (date_from date_to : Int) : List Int :=
  if date_from < date_to then
    (date_from + 1) :: LandsatDownloader.create_array_of_downloadable_days (date_from + 1) date_to
  else []
termination_by (date_to - date_from).toNat
decreasing_by
  simp_wf
  omega

/-- `LandsatDownloader._get_downloadable_days()` (lines 182-202):
`should_be_checked_since = utcnow - 4 weeks`; if the stored
`last_downloaded_day` is older than that, the range starts at
`last_downloaded_day`, otherwise at `should_be_checked_since`; the range
always ends at `utcnow` (`today`). -/
def LandsatDownloader.get_downloadable_days (today last_downloaded_day : Int) : List Int :=
  let should_be_checked_since := today - 28
  let date_from := if last_downloaded_day < should_be_checked_since
    then last_downloaded_day
    else should_be_checked_since
  LandsatDownloader.create_array_of_downloadable_days date_from today

lemma mem_create_array_iff (date_to : Int) :
    ∀ (n : Nat) (date_from : Int), (date_to - date_from).toNat = n →
      ∀ d : Int, d ∈ LandsatDownloader.create_array_of_downloadable_days date_from date_to ↔
        date_from < d ∧ d ≤ date_to := by
  intro n
  induction n with
  | zero =>
    intro date_from hf d
    rw [LandsatDownloader.create_array_of_downloadable_days]
    have hnot : ¬ date_from < date_to := by omega
    simp [hnot]
    omega
  | succ n ih =>
    intro date_from hf d
    rw [LandsatDownloader.create_array_of_downloadable_days]
    have hlt : date_from < date_to := by omega
    rw [if_pos hlt]
    rw [List.mem_cons, ih (date_from + 1) (by omega) d]
    omega

lemma mem_create_array (date_from date_to d : Int) :
    d ∈ LandsatDownloader.create_array_of_downloadable_days date_from date_to ↔
      date_from < d ∧ d ≤ date_to :=
  mem_create_array_iff date_to (date_to - date_from).toNat date_from rfl d

/-- C2, counterexample to the claim as stated.  With current date 30 and a
stored checkpoint day 0 (older than the 4-week window, which starts at day
2), the computed set of days contains day 1 — earlier than 4 weeks before
the current date — and contains day 30, the current date itself, which is
later than yesterday (day 29). -/
theorem c2_counterexample :
    ((1 : Int) ∈ LandsatDownloader.get_downloadable_days 30 0 ∧ ¬((30 : Int) - 28 ≤ 1)) ∧
    ((30 : Int) ∈ LandsatDownloader.get_downloadable_days 30 0 ∧ ¬((30 : Int) ≤ 30 - 1)) := by
  have hdays : LandsatDownloader.get_downloadable_days 30 0 =
      LandsatDownloader.create_array_of_downloadable_days 0 30 := by
    rw [LandsatDownloader.get_downloadable_days]
    norm_num
  refine ⟨⟨?_, by norm_num⟩, ⟨?_, by norm_num⟩⟩
  · rw [hdays, mem_create_array]; norm_num
  · rw [hdays, mem_create_array]; norm_num

/-- C2, amended: every computed day lies strictly after
`min last_downloaded_day (today - 28)` and at or before `today`: the range
starts at the *older* of the checkpoint and the 4-week mark (the source
looks back beyond 4 weeks when the checkpoint is older, per its own
docstring "Everytime at least four weeks are being downloaded"), and runs
up to and including the current day, not only up to yesterday. -/
theorem c2_downloadable_days_range (today last_downloaded_day d : Int)
    (h : d ∈ LandsatDownloader.get_downloadable_days today last_downloaded_day) :
    min last_downloaded_day (today - 28) < d ∧ d ≤ today := by
  rw [LandsatDownloader.get_downloadable_days] at h
  by_cases hc : last_downloaded_day < today - 28
  · rw [if_pos hc, mem_create_array] at h
    omega
  · rw [if_neg hc, mem_create_array] at h
    omega

/-- Witness for C2's amended statement at current date 30, checkpoint 0:
day 1 is in the computed set and indeed lies in `(min 0 2, 30]`. -/
theorem c2_downloadable_days_range_witness :
    min (0 : Int) (30 - 28) < 1 ∧ (1 : Int) ≤ 30 :=
  c2_downloadable_days_range 30 0 1 (by
    rw [show LandsatDownloader.get_downloadable_days 30 0 =
        LandsatDownloader.create_array_of_downloadable_days 0 30 from rfl,
      mem_create_array]
    norm_num)

/-! ## `LandsatDownloader.run` (`landsat_downloader.py` lines 230-291)

For each (day × dataset × geojson) triple the body discovers scenes, builds
one `DownloadedFile` per scene, runs their `process` methods in threads,
joins *all* threads, removes the server-side scene list, and raises the
first recorded per-task exception; `_update_last_downloaded_day(day)` runs
only after every triple of the day finished without a recorded exception.
We model the per-triple tail (lines 282-289) and the per-day sequencing as
an event trace; a raised exception aborts the remaining triples (the raise
propagates out of `run`). -/

/-- A finished scene task as the orchestrator sees it: its display id and
the exception captured by `DownloadedFile.process` (lines 224-225), if
any. -/
structure TaskOutcome where
  displayId : String
  exceptionOccurred : Option String
deriving DecidableEq, Repr

/-- Events of the orchestrator's run, in program order. -/
inductive RunEvent
  | joinThread (displayId : String)
  | sceneListRemove
  | raiseTaskError (message : String)
  | updateLastDownloadedDay (day : Int)
deriving DecidableEq, Repr

/-- The first captured exception, in list order — the loop
`for downloaded_file in downloaded_files: if ... raise` (lines 287-289). -/
def LandsatDownloader.first_task_error : List TaskOutcome → Option String
  | [] => none
  | t :: ts =>
    match t.exceptionOccurred with
    | some e => some e
    | none => LandsatDownloader.first_task_error ts

/-- Events of the tail of one triple's body (lines 282-289): join every
thread, remove the scene list, then raise the first recorded exception if
there is one. -/
def LandsatDownloader.run_triple_events (tasks : List TaskOutcome) : List RunEvent :=
  tasks.map (fun t => RunEvent.joinThread t.displayId) ++ [RunEvent.sceneListRemove] ++
    (match LandsatDownloader.first_task_error tasks with
     | some e => [RunEvent.raiseTaskError e]
     | none => [])

/-- Events of one day of `run`: the triples run in sequence; a raised
exception propagates out of `run`, so later triples and the checkpoint
update are not reached; with no recorded exception
`_update_last_downloaded_day(day)` runs after the last triple (line
291). -/
def LandsatDownloader.run_day_events (day : Int) : List (List TaskOutcome) → List RunEvent
  | [] => [RunEvent.updateLastDownloadedDay day]
  | tasks :: rest =>
    LandsatDownloader.run_triple_events tasks ++
      (match LandsatDownloader.first_task_error tasks with
       | some _ => []
       | none => LandsatDownloader.run_day_events day rest)

lemma first_task_error_eq_none_iff (tasks : List TaskOutcome) :
    LandsatDownloader.first_task_error tasks = none ↔
      ∀ t ∈ tasks, t.exceptionOccurred = none := by
  induction tasks with
  | nil => simp [LandsatDownloader.first_task_error]
  | cons t ts ih =>
    rw [LandsatDownloader.first_task_error]
    match he : t.exceptionOccurred with
    | some e => simp [he]
    | none => simp [he, ih]

lemma update_not_mem_run_triple_events (day : Int) (tasks : List TaskOutcome) :
    RunEvent.updateLastDownloadedDay day ∉ LandsatDownloader.run_triple_events tasks := by
  intro h
  rw [LandsatDownloader.run_triple_events] at h
  rcases List.mem_append.1 h with h1 | h1
  · rcases List.mem_append.1 h1 with h2 | h2
    · rcases List.mem_map.1 h2 with ⟨t, _, ht⟩
      exact RunEvent.noConfusion ht
    · rcases List.mem_singleton.1 h2 with h3
      exact RunEvent.noConfusion h3
  · match hfe : LandsatDownloader.first_task_error tasks with
    | some e => rw [hfe] at h1; rcases List.mem_singleton.1 h1 with h3; exact RunEvent.noConfusion h3
    | none => rw [hfe] at h1; exact absurd h1 (List.not_mem_nil _)

lemma update_not_mem_run_day_events (day : Int) (triples : List (List TaskOutcome))
    (hbad : ∃ tasks ∈ triples, ∃ t ∈ tasks, t.exceptionOccurred ≠ none) :
    RunEvent.updateLastDownloadedDay day ∉ LandsatDownloader.run_day_events day triples := by
  induction triples with
  | nil => rcases hbad with ⟨tasks, hmem, _⟩; exact absurd hmem (List.not_mem_nil _)
  | cons ts rest ih =>
    rw [LandsatDownloader.run_day_events]
    intro h
    rcases List.mem_append.1 h with h1 | h1
    · exact update_not_mem_run_triple_events day ts h1
    · match hfe : LandsatDownloader.first_task_error ts with
      | some e => rw [hfe] at h1; exact absurd h1 (List.not_mem_nil _)
      | none =>
        rw [hfe] at h1
        rcases hbad with ⟨tasks, hmem, t, ht, he⟩
        rcases List.mem_cons.1 hmem with rfl | hmem
        · exact he ((first_task_error_eq_none_iff tasks).1 hfe t ht)
        · exact ih ⟨tasks, hmem, t, ht, he⟩ h1

/-- C8.  If some task of a triple of the day records a terminal error, then
(a) that triple's event trace joins every thread of the batch and removes
the scene list before the single raise event, which raises the first
recorded error and is the last event of the triple; and (b) the checkpoint
update `_update_last_downloaded_day(day)` never appears in the day's
events. -/
theorem c8_failed_task_blocks_checkpoint (day : Int) (triples : List (List TaskOutcome))
    (tasks : List TaskOutcome) (hmem : tasks ∈ triples)
    (t : TaskOutcome) (ht : t ∈ tasks) (he : t.exceptionOccurred ≠ none) :
    (∃ e, LandsatDownloader.first_task_error tasks = some e ∧
      LandsatDownloader.run_triple_events tasks =
        tasks.map (fun u => RunEvent.joinThread u.displayId) ++
          [RunEvent.sceneListRemove] ++ [RunEvent.raiseTaskError e]) ∧
    RunEvent.updateLastDownloadedDay day ∉ LandsatDownloader.run_day_events day triples := by
  constructor
  · have hne : LandsatDownloader.first_task_error tasks ≠ none := by
      intro hnone
      exact he ((first_task_error_eq_none_iff tasks).1 hnone t ht)
    match hfe : LandsatDownloader.first_task_error tasks with
    | none => exact absurd hfe hne
    | some e =>
      refine ⟨e, rfl, ?_⟩
      rw [LandsatDownloader.run_triple_events, hfe]
  · exact update_not_mem_run_day_events day triples ⟨tasks, hmem, t, ht, he⟩

/-- Witness for C8: one day, one triple with two tasks of which the second
recorded an error; the triple's trace joins both threads and removes the
scene list before raising, and the day's trace contains no checkpoint
update. -/
theorem c8_failed_task_blocks_checkpoint_witness :
    (∃ e, LandsatDownloader.first_task_error
        [⟨"sceneA", none⟩, ⟨"sceneB", some "boom"⟩] = some e ∧
      LandsatDownloader.run_triple_events [⟨"sceneA", none⟩, ⟨"sceneB", some "boom"⟩] =
        ([⟨"sceneA", none⟩, ⟨"sceneB", some "boom"⟩] : List TaskOutcome).map
            (fun u => RunEvent.joinThread u.displayId) ++
          [RunEvent.sceneListRemove] ++ [RunEvent.raiseTaskError e]) ∧
    RunEvent.updateLastDownloadedDay 7 ∉
      LandsatDownloader.run_day_events 7 [[⟨"sceneA", none⟩, ⟨"sceneB", some "boom"⟩]] :=
  c8_failed_task_blocks_checkpoint 7 [[⟨"sceneA", none⟩, ⟨"sceneB", some "boom"⟩]]
    [⟨"sceneA", none⟩, ⟨"sceneB", some "boom"⟩] (by simp)
    ⟨"sceneB", some "boom"⟩ (by simp) (by simp)

/-! ## Construction of the scene tasks (C1)

`LandsatDownloader.run` (lines 245-255) constructs each per-scene task as
`DownloadedFile(attributes=..., stac_connector=..., s3_connector=...,
workdir=self._workdir, logger=..., thread_lock=...)`.
`DownloadedFile.__init__` (`downloaded_file.py` lines 63-72) accepts the
keyword parameters `attributes`, `stac_connector`, `s3_connector`,
`s3_download_host`, `logger`, `thread_lock`, `catalogue_only`,
`force_redownload_file` — and *no* `workdir` parameter, although its own
docstring documents one (`:param workdir: Path to workdir`).  In Python, a
keyword argument outside the accepted parameter list makes the call raise
`TypeError` before the constructor body runs. -/

/-- Keyword parameters of `DownloadedFile.__init__` (signature, lines
63-72). -/
def DownloadedFile.init_keyword_parameters : List String :=
  ["attributes", "stac_connector", "s3_connector", "s3_download_host",
   "logger", "thread_lock", "catalogue_only", "force_redownload_file"]

/-- Keywords used by the `DownloadedFile(...)` call in
`LandsatDownloader.run` (lines 246-255). -/
def LandsatDownloader.run_task_call_keywords : List String :=
  ["attributes", "stac_connector", "s3_connector", "workdir", "logger", "thread_lock"]

/-- Python keyword-call binding: a call with keyword arguments is accepted
only if every keyword is among the callee's parameters (the callee has no
`**kwargs`); otherwise the call raises `TypeError`. -/
def python_call_keywords_accepted (call accepted : List String) : Bool :=
  call.all (fun kw => accepted.contains kw)

/-- The scene descriptor fields `DownloadedFile.__init__` copies out of its
`attributes` dict (lines 104-111); `dateStart`/`dateEnd` model the
`start`/`end` keys. -/
structure SceneAttributes where
  entityId : String
  productId : String
  displayId : String
  url : String
  dataset : String
  dateStart : String
  dateEnd : String
  geojson : String
deriving DecidableEq, Repr

/-- Errors raised by the body of `DownloadedFile.__init__` (lines 89-102),
mirroring `exceptions/downloaded_file.py`. -/
inductive DownloadedFileInitError
  | threadLockNotSet
  | wrongConstructorArgumentsPassed
  | s3ConnectorNotSpecified (displayId : String)
  | stacConnectorNotSpecified (displayId : String)
deriving DecidableEq, Repr

/-- The argument checks of the body of `DownloadedFile.__init__` (lines
89-102): missing thread lock, attributes, S3 connector or STAC connector
raise; otherwise construction succeeds. -/
def DownloadedFile.init_check (attributes : Option SceneAttributes)
    (stac_connector s3_connector thread_lock : Bool) :
    Except DownloadedFileInitError Unit :=
  if thread_lock = false then .error .threadLockNotSet
  else
    match attributes with
    | none => .error .wrongConstructorArgumentsPassed
    | some attrs =>
      if s3_connector = false then .error (.s3ConnectorNotSpecified attrs.displayId)
      else if stac_connector = false then .error (.stacConnectorNotSpecified attrs.displayId)
      else .ok ()

/-- C1.  The task construction performed by `LandsatDownloader.run` raises
`TypeError` for every scene: the call passes the keyword `workdir`, which
is not among the keyword parameters of `DownloadedFile.__init__`, so
Python rejects the call before the constructor body runs — even though the
body's own checks would succeed on a well-formed descriptor with both
connectors and the thread lock supplied. -/
theorem c1_run_task_construction_type_error :
    python_call_keywords_accepted LandsatDownloader.run_task_call_keywords
      DownloadedFile.init_keyword_parameters = false ∧
    "workdir" ∈ LandsatDownloader.run_task_call_keywords ∧
    "workdir" ∉ DownloadedFile.init_keyword_parameters ∧
    DownloadedFile.init_check
      (some ⟨"ent", "prod", "disp", "url", "landsat_ot_c2_l1", "s", "e", "g"⟩)
      true true true = .ok () := by
  refine ⟨by decide, by decide, by decide, rfl⟩

/-! ## `DownloadedFile` (`src/downloader/downloaded_file.py`)

The per-scene task.  One USGS download attempt is characterised by the
response's `Content-Disposition` filename, its declared `Content-Length`
and the number of bytes actually written to the local file. -/

/-- Errors of the download step, mirroring `exceptions/downloaded_file.py`:
`DownloadedFileUrlDoesNotContainFilename` and
`DownloadedFileDownloadedFileHasDifferentSize`. -/
inductive DownloadedFileError
  | urlDoesNotContainFilename
  | downloadedFileHasDifferentSize (expectedSize realSize : Nat)
deriving DecidableEq, Repr

/-- One `requests.get` attempt on the scene's URL, as `_download_self`
observes it. -/
structure DownloadAttempt where
  contentDispositionFilename : Option String
  contentLength : Nat
  writtenSize : Nat
deriving DecidableEq, Repr

/-- Result of one `_download_self()` call: `ok true` when a new copy was
downloaded, `ok false` when the file was already on S3, or the raised
error; `partialFileDeleted` records the `unlink` performed right before
raising the size-mismatch error. -/
structure DownloadSelfResult where
  result : Except DownloadedFileError Bool
  partialFileDeleted : Bool
deriving Repr

/-- `DownloadedFile._check_if_already_downloaded(expected_length)` (lines
227-244): under the `_force_redownload_file` flag it returns `False`
without consulting S3; otherwise it returns the store's
existence-with-size answer (`s3HasMatchingFile`). -/
def DownloadedFile.check_if_already_downloaded (force_redownload_file : Bool)
    (s3HasMatchingFile : Bool) : Bool :=
  if force_redownload_file then false else s3HasMatchingFile

/-- `DownloadedFile._download_self()` (lines 246-294): a response without a
`filename` in `Content-Disposition` raises; a file already on S3 with
matching size ends the call with `False`; otherwise the body is streamed to
disk and, unless `catalogue_only` is set, a written size different from the
declared `Content-Length` deletes the partial file and raises
`DownloadedFileDownloadedFileHasDifferentSize`; on success the call returns
`True`. -/
def DownloadedFile.download_self (catalogue_only : Bool) (alreadyDownloaded : Bool)
    (a : DownloadAttempt) : DownloadSelfResult :=
  match a.contentDispositionFilename with
  | none => ⟨.error .urlDoesNotContainFilename, false⟩
  | some _ =>
    if alreadyDownloaded then ⟨.ok false, false⟩
    else if catalogue_only = false ∧ a.contentLength ≠ a.writtenSize then
      ⟨.error (.downloadedFileHasDifferentSize a.contentLength a.writtenSize), true⟩
    else ⟨.ok true, false⟩

/-- The `while True` redo loop opening `DownloadedFile.process` (lines
163-174): call `_download_self`; a raised
`DownloadedFileDownloadedFileHasDifferentSize` logs and re-enters the loop;
any other outcome leaves it.  `attempts i` is the outcome of the `i`-th
USGS download attempt; the `fuel` argument limits how many iterations we
examine — `none` means the loop was still running after `fuel`
iterations. -/
def DownloadedFile.process_download_phase (catalogue_only alreadyDownloaded : Bool)
    (attempts : Nat → DownloadAttempt) (i : Nat) :
    Nat → Option (Except DownloadedFileError Bool)
  | 0 => none
  | fuel + 1 =>
    match (DownloadedFile.download_self catalogue_only alreadyDownloaded (attempts i)).result with
    | .error (.downloadedFileHasDifferentSize _ _) =>
      DownloadedFile.process_download_phase catalogue_only alreadyDownloaded attempts (i + 1) fuel
    | r => some r

/-- The property asserted by the claim: some fixed iteration bound after
which the redo loop has always terminated, whatever the attempt
outcomes. -/
def DownloadedFile.download_redo_bounded : Prop :=
  ∃ k : Nat, ∀ (catalogue_only alreadyDownloaded : Bool) (attempts : Nat → DownloadAttempt),
    (DownloadedFile.process_download_phase catalogue_only alreadyDownloaded attempts 0 k).isSome

lemma process_download_phase_persistent_mismatch :
    ∀ (fuel i : Nat),
      DownloadedFile.process_download_phase false false
        (fun _ => ⟨some "scene.tar", 1, 0⟩) i fuel = none := by
  intro fuel
  induction fuel with
  | zero => intro i; rfl
  | succ fuel ih =>
    intro i
    rw [DownloadedFile.process_download_phase]
    exact ih (i + 1)

/-- C5, counterexample to the claim as stated.  The redo loop has no bound:
for every candidate bound `k` there is an attempt stream — every attempt
writing 0 of 1 declared bytes — under which the loop is still running after
`k` iterations, never terminating and never failing the task. -/
theorem c5_counterexample : ¬ DownloadedFile.download_redo_bounded := by
  rintro ⟨k, h⟩
  have hrun := h false false (fun _ => ⟨some "scene.tar", 1, 0⟩)
  rw [process_download_phase_persistent_mismatch k 0] at hrun
  simp at hrun

lemma download_self_mismatch (a : DownloadAttempt) (fn : String)
    (hf : a.contentDispositionFilename = some fn)
    (hsz : a.contentLength ≠ a.writtenSize) :
    DownloadedFile.download_self false false a =
      ⟨.error (.downloadedFileHasDifferentSize a.contentLength a.writtenSize), true⟩ := by
  rw [DownloadedFile.download_self, hf]
  simp [hsz]

lemma download_self_success (a : DownloadAttempt) (fn : String)
    (hf : a.contentDispositionFilename = some fn)
    (hsz : a.contentLength = a.writtenSize) :
    DownloadedFile.download_self false false a = ⟨.ok true, false⟩ := by
  rw [DownloadedFile.download_self, hf]
  simp [hsz]

lemma process_download_phase_exits_at_first_good :
    ∀ (n : Nat) (attempts : Nat → DownloadAttempt) (i : Nat),
      (∀ j, j < n → (∃ fn, (attempts (i + j)).contentDispositionFilename = some fn) ∧
        (attempts (i + j)).contentLength ≠ (attempts (i + j)).writtenSize) →
      (∃ fn, (attempts (i + n)).contentDispositionFilename = some fn) →
      (attempts (i + n)).contentLength = (attempts (i + n)).writtenSize →
      DownloadedFile.process_download_phase false false attempts i (n + 1) =
        some (.ok true) := by
  intro n
  induction n with
  | zero =>
    intro attempts i _ hgood hsz
    rcases hgood with ⟨fn, hf⟩
    simp only [Nat.add_zero] at hf hsz
    rw [DownloadedFile.process_download_phase,
      download_self_success (attempts i) fn hf hsz]
  | succ n ih =>
    intro attempts i hbad hgood hsz
    have h0 := hbad 0 (Nat.succ_pos n)
    rcases h0 with ⟨⟨fn, hf⟩, hne⟩
    simp only [Nat.add_zero] at hf hne
    rw [DownloadedFile.process_download_phase,
      download_self_mismatch (attempts i) fn hf hne]
    have hshift : ∀ j, j < n → (∃ fn, (attempts (i + 1 + j)).contentDispositionFilename = some fn) ∧
        (attempts (i + 1 + j)).contentLength ≠ (attempts (i + 1 + j)).writtenSize := by
      intro j hj
      have := hbad (j + 1) (by omega)
      have harith : i + (j + 1) = i + 1 + j := by omega
      rw [harith] at this
      exact this
    have harith : i + (n + 1) = i + 1 + n := by omega
    rw [harith] at hgood hsz
    exact ih attempts (i + 1) hshift hgood hsz

/-- C5, amended: a download attempt whose written size differs from the
declared `Content-Length` (outside catalogue-only mode) deletes the partial
file and raises `DownloadedFileDownloadedFileHasDifferentSize`; the
caller's `while True` loop then re-enters the download from scratch.  The
redo loop is *unbounded*: it terminates exactly when some attempt does not
raise the size mismatch — in particular it succeeds right after any run of
`n` mismatching attempts followed by a clean one — and under a persistent
mismatch it retries forever instead of failing the task. -/
theorem c5_download_size_mismatch_redo :
    (∀ (a : DownloadAttempt) (fn : String), a.contentDispositionFilename = some fn →
      a.contentLength ≠ a.writtenSize →
      DownloadedFile.download_self false false a =
        ⟨.error (.downloadedFileHasDifferentSize a.contentLength a.writtenSize), true⟩) ∧
    (∀ (catalogue_only alreadyDownloaded : Bool) (attempts : Nat → DownloadAttempt)
        (i fuel : Nat) (e r : Nat),
      (DownloadedFile.download_self catalogue_only alreadyDownloaded (attempts i)).result =
        .error (.downloadedFileHasDifferentSize e r) →
      DownloadedFile.process_download_phase catalogue_only alreadyDownloaded attempts i (fuel + 1) =
        DownloadedFile.process_download_phase catalogue_only alreadyDownloaded attempts (i + 1) fuel) ∧
    (∀ (fuel i : Nat),
      DownloadedFile.process_download_phase false false
        (fun _ => ⟨some "scene.tar", 1, 0⟩) i fuel = none) ∧
    (∀ (n : Nat) (attempts : Nat → DownloadAttempt),
      (∀ j, j < n → (∃ fn, (attempts j).contentDispositionFilename = some fn) ∧
        (attempts j).contentLength ≠ (attempts j).writtenSize) →
      (∃ fn, (attempts n).contentDispositionFilename = some fn) →
      (attempts n).contentLength = (attempts n).writtenSize →
      DownloadedFile.process_download_phase false false attempts 0 (n + 1) =
        some (.ok true)) := by
  refine ⟨download_self_mismatch, ?_, process_download_phase_persistent_mismatch, ?_⟩
  · intro catalogue_only alreadyDownloaded attempts i fuel e r h
    rw [DownloadedFile.process_download_phase, h]
  · intro n attempts hbad hgood hsz
    exact process_download_phase_exits_at_first_good n attempts 0
      (by simpa using hbad) (by simpa using hgood) (by simpa using hsz)

/-- Witness for C5's amended statement: an attempt stream whose first two
attempts write 0 of 1 declared bytes and whose third is clean makes the redo
loop run exactly three attempts and succeed. -/
theorem c5_download_size_mismatch_redo_witness :
    DownloadedFile.process_download_phase false false
      (fun i => if i < 2 then ⟨some "scene.tar", 1, 0⟩ else ⟨some "scene.tar", 1, 1⟩)
      0 3 = some (.ok true) :=
  c5_download_size_mismatch_redo.2.2.2 2
    (fun i => if i < 2 then ⟨some "scene.tar", 1, 0⟩ else ⟨some "scene.tar", 1, 1⟩)
    (fun j hj => by
      interval_cases j
      · exact ⟨⟨"scene.tar", rfl⟩, by decide⟩
      · exact ⟨⟨"scene.tar", rfl⟩, by decide⟩)
    ⟨"scene.tar", rfl⟩ rfl

/-! ## Thumbnail derivation (`downloaded_file.py` lines 503-639, and the
call sites in `process`, lines 197-222) -/

/-- The three (or, for MSS, green/red/near-infrared) band filenames
selected from the tar listing. -/
structure BandFilenames where
  blue : Option String
  green : Option String
  red : Option String
  nir : Option String
deriving DecidableEq, Repr

/-- Python's substring test `needle in hay`, over character lists. -/
def pyInChars (needle : List Char) : List Char → Bool
  | [] => needle.isEmpty
  | c :: rest => List.isPrefixOf needle (c :: rest) || pyInChars needle rest

/-- Python's `str.upper()`, over character lists. -/
def pyUpperChars (cs : List Char) : List Char := cs.map Char.toUpper

/-- `next((filename for filename in tar.getnames() if TAG in
filename.upper()), None)`. -/
def DownloadedFile.find_band_file (tag : String) (tarNames : List String) : Option String :=
  tarNames.find? (fun n => pyInChars tag.toList (pyUpperChars n.toList))

/-- The band selection of `DownloadedFile._generate_thumbnail` (lines
537-600): per dataset family, with the platform sub-match for
`landsat_mss_c2_l1`; an unrecognised dataset or platform raises
`ValueError`. -/
def DownloadedFile.generate_thumbnail_selection (dataset platform : String)
    (tarNames : List String) : Except String BandFilenames :=
  match dataset with
  | "landsat_ot_c2_l1" | "landsat_ot_c2_l2" =>
    .ok ⟨DownloadedFile.find_band_file "B2" tarNames,
         DownloadedFile.find_band_file "B3" tarNames,
         DownloadedFile.find_band_file "B4" tarNames, none⟩
  | "landsat_etm_c2_l1" | "landsat_etm_c2_l2" | "landsat_tm_c2_l1" | "landsat_tm_c2_l2" =>
    .ok ⟨DownloadedFile.find_band_file "B1" tarNames,
         DownloadedFile.find_band_file "B2" tarNames,
         DownloadedFile.find_band_file "B3" tarNames, none⟩
  | "landsat_mss_c2_l1" =>
    match platform with
    | "landsat-1" | "landsat-2" | "landsat-3" =>
      .ok ⟨none, DownloadedFile.find_band_file "B4" tarNames,
           DownloadedFile.find_band_file "B5" tarNames,
           DownloadedFile.find_band_file "B6" tarNames⟩
    | "landsat-4" | "landsat-5" =>
      .ok ⟨none, DownloadedFile.find_band_file "B1" tarNames,
           DownloadedFile.find_band_file "B2" tarNames,
           DownloadedFile.find_band_file "B3" tarNames⟩
    | _ => .error ("Unexpected platform: " ++ platform ++ "!")
  | _ => .error ("Unexpected dataset " ++ dataset ++ "!")

/-- The statements of `DownloadedFile.process` after the download/upload
part (lines 197-222), in program order. -/
inductive ProcessEvent
  | untarMetadata
  | uploadMetadataXmlToS3
  | createFeature
  | generateThumbnail (selection : Except String BandFilenames)
  | uploadThumbnailToS3
  | appendAssetsToFeature
  | registerStacItem
  | dumpFeatureIntoJson
  | uploadFeatureToS3
  | uploadFeatureIdToS3
deriving Repr

/-- The tail of `DownloadedFile.process` (lines 197-222) as an event trace.
The statements run unconditionally in this order; in particular
`_generate_thumbnail()` (with its band selection) and
`_upload_thumbnail_to_s3()` are always executed when control reaches them —
no statement of these lines consults the object store, so the
`storeHasThumbnail` parameter (whether the scene's thumbnail key already
exists in the store) does not occur in the body. -/
def DownloadedFile.process_after_download (storeHasThumbnail : Bool)
    (dataset platform : String) (tarNames : List String) : List ProcessEvent :=
  [.untarMetadata, .uploadMetadataXmlToS3, .createFeature,
   .generateThumbnail (DownloadedFile.generate_thumbnail_selection dataset platform tarNames),
   .uploadThumbnailToS3, .appendAssetsToFeature, .registerStacItem,
   .dumpFeatureIntoJson, .uploadFeatureToS3, .uploadFeatureIdToS3]

/-- C6, counterexample to the claim as stated.  With the scene's thumbnail
artifact already present in the object store (`storeHasThumbnail = true`),
the task still performs thumbnail derivation — including band selection,
which here picks the B2/B3/B4 files of an OLI scene — because the process
tail contains no existence check for the thumbnail key. -/
theorem c6_counterexample :
    ProcessEvent.generateThumbnail
        (DownloadedFile.generate_thumbnail_selection "landsat_ot_c2_l1" "landsat-9"
          ["LC09_B2.TIF", "LC09_B3.TIF", "LC09_B4.TIF"]) ∈
      DownloadedFile.process_after_download true "landsat_ot_c2_l1" "landsat-9"
        ["LC09_B2.TIF", "LC09_B3.TIF", "LC09_B4.TIF"] ∧
    DownloadedFile.generate_thumbnail_selection "landsat_ot_c2_l1" "landsat-9"
        ["LC09_B2.TIF", "LC09_B3.TIF", "LC09_B4.TIF"] =
      .ok ⟨some "LC09_B2.TIF", some "LC09_B3.TIF", some "LC09_B4.TIF", none⟩ := by
  constructor
  · simp [DownloadedFile.process_after_download]
  · rfl

/-- C6, amended: thumbnail derivation is performed unconditionally whenever
the process tail runs — the derivation (with its band selection) appears in
the trace for *every* state of the object store, and the trace does not
depend on whether the thumbnail key is already present. -/
theorem c6_thumbnail_always_derived (storeHasThumbnail : Bool)
    (dataset platform : String) (tarNames : List String) :
    ProcessEvent.generateThumbnail
        (DownloadedFile.generate_thumbnail_selection dataset platform tarNames) ∈
      DownloadedFile.process_after_download storeHasThumbnail dataset platform tarNames ∧
    DownloadedFile.process_after_download storeHasThumbnail dataset platform tarNames =
      DownloadedFile.process_after_download true dataset platform tarNames := by
  exact ⟨by simp [DownloadedFile.process_after_download], rfl⟩

/-! ## The forced-redownload recursion (C9)

`DownloadedFile.process` (lines 176-195): when `_download_self` reported
the file as already on S3, the task recovers the stored tar via
`_download_feature_from_s3`; a `ClientError` with code 404 sets
`_force_redownload_file = True`, calls `self.process()` again and returns
immediately after it ("to prevent never-ending loop"). -/

/-- The store state the recover path depends on: whether the data key
exists with matching size (the dedup check of `_download_self`) and whether
the stored tar is actually retrievable (`false` makes
`_download_feature_from_s3` raise the 404 `ClientError`). -/
structure RecoverEnv where
  s3HasMatchingDataFile : Bool
  s3HasDataTar : Bool
deriving DecidableEq, Repr

/-- Steps of one `process` invocation relevant to the recover path. -/
inductive TaskStep
  | enterProcess (force : Bool)
  | downloadFromUSGS
  | uploadDataToS3
  | downloadFeatureFromS3
  | featureNotFound404
  | continuePipeline
deriving DecidableEq, Repr

/-- One `process` invocation under the given `_force_redownload_file` flag
(lines 162-195): if the dedup check says the file is already on S3
(impossible under the force flag), recover the stored tar, with the 404
branch running the continuation `recurse` (the body's recursive
`self.process()` followed by `return`); otherwise download from USGS and
upload. -/
def DownloadedFile.process_model_go (env : RecoverEnv) (force : Bool)
    (recurse : List TaskStep) : List TaskStep :=
  if DownloadedFile.check_if_already_downloaded force env.s3HasMatchingDataFile then
    if env.s3HasDataTar then
      [.enterProcess force, .downloadFeatureFromS3, .continuePipeline]
    else
      [.enterProcess force, .downloadFeatureFromS3, .featureNotFound404] ++ recurse
  else
    [.enterProcess force, .downloadFromUSGS, .uploadDataToS3, .continuePipeline]

/-- The re-entered `process` call, running with
`_force_redownload_file = True`; its own 404 branch is unreachable (the
forced dedup check returns `False`), so its continuation is empty. -/
def DownloadedFile.process_forced (env : RecoverEnv) : List TaskStep :=
  DownloadedFile.process_model_go env true []

/-- A task's `process` call as started by the orchestrator
(`_force_redownload_file = False` by configuration), with the recursive
re-entry as the 404 branch's continuation. -/
def DownloadedFile.process_model (env : RecoverEnv) : List TaskStep :=
  DownloadedFile.process_model_go env false (DownloadedFile.process_forced env)

/-- C9.  (1) Under the force flag the dedup check returns `false` without
consulting the store, so the re-entered run downloads anew; (2) when the
store claims the data file is present but the stored tar is missing (404),
the task re-enters `process` exactly once: the trace shows one 404, one
re-entry under the force flag, and a fresh download, and the re-entered run
never reaches the recover path again; (3) for every store state, the trace
contains at most one 404 recovery failure and at most two `process`
entries — the recursion depth is at most one. -/
theorem c9_force_redownload_reenters_once :
    (∀ s3HasMatchingFile : Bool,
      DownloadedFile.check_if_already_downloaded true s3HasMatchingFile = false) ∧
    (∀ env : RecoverEnv, env.s3HasMatchingDataFile = true → env.s3HasDataTar = false →
      DownloadedFile.process_model env =
        [.enterProcess false, .downloadFeatureFromS3, .featureNotFound404,
         .enterProcess true, .downloadFromUSGS, .uploadDataToS3, .continuePipeline] ∧
      TaskStep.downloadFeatureFromS3 ∉ DownloadedFile.process_forced env) ∧
    (∀ env : RecoverEnv,
      (DownloadedFile.process_model env).count TaskStep.featureNotFound404 ≤ 1 ∧
      ((DownloadedFile.process_model env).countP
        (fun s => match s with | .enterProcess _ => true | _ => false)) ≤ 2) := by
  refine ⟨fun _ => rfl, ?_, ?_⟩
  · rintro ⟨m, t⟩ hm ht
    simp only at hm ht
    subst hm; subst ht
    exact ⟨rfl, by decide⟩
  · rintro ⟨m, t⟩
    cases m <;> cases t <;> exact ⟨by decide, by decide⟩

/-- Witness for C9 at the concrete store state "data key present, stored
tar missing": the trace is the seven-step sequence with exactly one 404 and
one forced re-entry, and the re-entered run never recovers from the
store. -/
theorem c9_force_redownload_reenters_once_witness :
    DownloadedFile.process_model ⟨true, false⟩ =
      [.enterProcess false, .downloadFeatureFromS3, .featureNotFound404,
       .enterProcess true, .downloadFromUSGS, .uploadDataToS3, .continuePipeline] ∧
    TaskStep.downloadFeatureFromS3 ∉ DownloadedFile.process_forced ⟨true, false⟩ :=
  c9_force_redownload_reenters_once.2.1 ⟨true, false⟩ rfl rfl

end Landsat
